import Mathlib

/-!
Verification of the concurrency core of the logging subsystem of the
lookSiliconflow_gui repository.

Shallow embedding conventions:

* A Python method that can raise is embedded as a function returning
  Except PyErr _, where Except.error e means the Python exception e
  propagates to the caller.
* A Python callback that either returns None or raises is embedded as a
  function returning Option PyErr (none = returned normally,
  some e = raised e).
* Where a claim is about lock discipline, the method is embedded as a
  function that also produces the sequence of events it performs
  (lock acquisitions and releases, invocations of collaborator methods),
  in source order.  Lock-freedom and held-lock facts are then decidable
  statements about that event list.
* datetime.now() and threading.get_ident() are passed in as plain Nat
  arguments; payload dictionaries that no claim inspects are dropped.
-/

/-- A Python exception value: its class name and message. -/
structure PyErr where
  ty : String
  msg : String
deriving DecidableEq, Repr

/-- LogLevel from src/src/logs/core/types.py. -/
inductive LogLevel where
  | debug
  | info
  | warning
  | error
  | critical
deriving DecidableEq, Repr

/-- Numeric level values exactly as assigned in types.py. -/
def LogLevel.value : LogLevel → Nat
  | .debug => 10
  | .info => 20
  | .warning => 30
  | .error => 40
  | .critical => 50

/-- LogEntry from src/src/logs/core/types.py (timestamp as a Nat tick;
the optional exception payload and context dict carry no information any
claim inspects and are kept as a plain message option / key list). -/
structure LogEntry where
  timestamp : Nat
  level : LogLevel
  message : String
  loggerName : String
  threadId : Nat
  exceptionMsg : Option String := none
  contextKeys : List String := []
deriving DecidableEq, Repr

/-! ## AsyncLogHandler queue (src/src/logs/loggers/async_logger.py) -/

/-- The queue-relevant state of AsyncLogHandler: the bound given to
queue.Queue(maxsize=queue_size) and the queued records (head = front). -/
structure AsyncQueueState where
  queueSize : Nat
  queue : List LogEntry
deriving DecidableEq, Repr

/-- queue.Queue fullness: put_nowait raises queue.Full exactly when the
maxsize is positive and the queue already holds maxsize items. -/
def queueFull (st : AsyncQueueState) : Bool :=
  0 < st.queueSize && st.queueSize ≤ st.queue.length

/-- The queue.Full exception raised by put_nowait on a full queue. -/
def queueFullErr : PyErr := { ty := "queue.Full", msg := "" }

/-- The error_handler callback type of AsyncLogHandler: called with the
exception and a context dict holding the record; it may itself raise. -/
def DropCallback := LogEntry → Option PyErr

/-- AsyncLogHandler.enqueue (async_logger.py lines 85-105): put_nowait the
record; on queue.Full invoke the error handler (if any) with the Full
exception and the record, and return False.  Only queue.Full is caught, so
an exception raised by the error handler itself propagates. -/
def enqueue (handler : Option DropCallback) (st : AsyncQueueState)
    (record : LogEntry) : Except PyErr (AsyncQueueState × Bool) :=
  if queueFull st then
    match handler with
    | none => .ok (st, false)
    | some f =>
      match f record with
      | none => .ok (st, false)
      | some e => .error e
  else
    .ok ({ st with queue := st.queue ++ [record] }, true)

/-- Repeated enqueue of a batch of records with no consumer progress in
between (a stalled consumer), collecting the per-record success flags. -/
def enqueueAll (handler : Option DropCallback) (st : AsyncQueueState) :
    List LogEntry → Except PyErr (AsyncQueueState × List Bool)
  | [] => .ok (st, [])
  | r :: rs =>
    match enqueue handler st r with
    | .error e => .error e
    | .ok (st1, b) =>
      match enqueueAll handler st1 rs with
      | .error e => .error e
      | .ok (st2, bs) => .ok (st2, b :: bs)

/-- AsyncLogger._handle_error (async_logger.py lines 377-385) is the drop
callback AsyncLogger wires into its handler; its body is pass. -/
def asyncLoggerDropCallback : DropCallback := fun _ => none

/-! ## Dispatch to output strategies (AsyncLogHandler._process_record) -/

/-- An output strategy (a sink): its class name (used as the identity tag
in error contexts) and its output method, which may raise. -/
structure Strategy where
  name : String
  output : LogEntry → Option PyErr

/-- Events performed by AsyncLogHandler._process_record, in source order. -/
inductive DispatchEvent where
  | acquireStrategies
  | releaseStrategies
  | delivered (target : String)
  | errorRouted (target : String)
deriving DecidableEq, Repr

/-- AsyncLogHandler._process_record (async_logger.py lines 186-203): with
self._strategies_lock held, iterate the live strategy list; each
strategy.output(record) is wrapped in try/except, and an exception is
forwarded to the error handler (when one is configured) together with the
class name of the failing strategy.  The event list records, in order,
the lock acquisition, the per-strategy outcome, and the lock release. -/
def processRecord (hasErrorHandler : Bool) (strategies : List Strategy)
    (record : LogEntry) : List DispatchEvent :=
  DispatchEvent.acquireStrategies ::
    (strategies.flatMap fun s =>
      match s.output record with
      | none => [DispatchEvent.delivered s.name]
      | some _ => if hasErrorHandler then [DispatchEvent.errorRouted s.name] else [])
    ++ [DispatchEvent.releaseStrategies]

/-- Dispatch of a whole batch of records, one _process_record call each. -/
def processAll (hasErrorHandler : Bool) (strategies : List Strategy)
    (records : List LogEntry) : List DispatchEvent :=
  records.flatMap (processRecord hasErrorHandler strategies)

/-- Walks an event list tracking how many times the strategies lock is
held, and checks that every target invocation (delivered or errorRouted)
happens at exactly the given lock depth. -/
def checkInvokeDepth (target : Nat) : Nat → List DispatchEvent → Bool
  | _, [] => true
  | d, .acquireStrategies :: rest => checkInvokeDepth target (d + 1) rest
  | d, .releaseStrategies :: rest => checkInvokeDepth target (d - 1) rest
  | d, .delivered _ :: rest => d == target && checkInvokeDepth target d rest
  | d, .errorRouted _ :: rest => d == target && checkInvokeDepth target d rest

/-- All target invocations in the trace happen at lock depth t. -/
def invocationsAtDepth (t : Nat) (tr : List DispatchEvent) : Bool :=
  checkInvokeDepth t 0 tr

/-- Number of deliveries to the named target in a trace. -/
def deliveredCount (tr : List DispatchEvent) (target : String) : Nat :=
  (tr.filter (· == DispatchEvent.delivered target)).length

/-- Number of error-routings tagged with the named target in a trace. -/
def errorRoutedCount (tr : List DispatchEvent) (target : String) : Nat :=
  (tr.filter (· == DispatchEvent.errorRouted target)).length

/-! ## Observer notification (AbstractLogger._notify_observers) -/

/-- A log observer: on_log_record and on_error, each of which may raise. -/
structure Observer where
  name : String
  onLogRecord : LogEntry → Option PyErr
  onError : PyErr → Option PyErr

/-- AbstractLogger._notify_observers (abstracts.py lines 116-131): under
the observers lock, for each observer call on_log_record inside
try/except; on an exception, call that observer.on_error with it.  The
on_error call itself is NOT wrapped, so an exception it raises propagates
(aborting the iteration). -/
def notifyObservers (record : LogEntry) : List Observer → Except PyErr Unit
  | [] => .ok ()
  | o :: rest =>
    match o.onLogRecord record with
    | none => notifyObservers record rest
    | some e =>
      match o.onError e with
      | none => notifyObservers record rest
      | some e2 => .error e2

/-! ## AsyncLogger.log (async_logger.py lines 255-286) -/

/-- The pieces of AsyncLogger state that log() touches: the logger name,
the config min level, the filter set, the observer set, and the queue of
its AsyncLogHandler (whose drop callback is AsyncLogger._handle_error). -/
structure AsyncLoggerState where
  name : String
  minLevel : LogLevel
  filters : List (LogEntry → Bool)
  observers : List Observer
  qstate : AsyncQueueState

/-- AbstractLogger._should_log (abstracts.py lines 133-156): the level
must be enabled and every filter must accept the record. -/
def shouldLog (lg : AsyncLoggerState) (record : LogEntry) : Bool :=
  lg.minLevel.value ≤ record.level.value && lg.filters.all fun f => f record

/-- AsyncLogger.log: return early when the level is below the config min
level; build the record; return early when _should_log rejects it;
notify the observers (exceptions propagate, see notifyObservers); then
enqueue the record into the async handler, whose drop callback is the
never-raising AsyncLogger._handle_error. -/
def asyncLog (lg : AsyncLoggerState) (timestamp threadId : Nat)
    (level : LogLevel) (message : String) : Except PyErr AsyncLoggerState :=
  if level.value < lg.minLevel.value then .ok lg
  else
    let record : LogEntry :=
      { timestamp := timestamp, level := level, message := message,
        loggerName := lg.name, threadId := threadId }
    if ¬ shouldLog lg record then .ok lg
    else
      match notifyObservers record lg.observers with
      | .error e => .error e
      | .ok _ =>
        match enqueue (some asyncLoggerDropCallback) lg.qstate record with
        | .error e => .error e
        | .ok (q1, _) => .ok { lg with qstate := q1 }

/-! ## AsyncLogHandler.flush (async_logger.py lines 107-114) -/

/-- The busy-wait loop of flush: while not self._queue.empty():
time.sleep(0.01).  The environment (the consumer thread draining the
queue concurrently) is abstracted as an oracle giving, for each check of
queue.empty(), whether the queue was observed empty then.  The fuel
argument bounds how many checks we unfold; the loop itself has no bound,
so running out of fuel (result none) means the loop was still spinning
after that many checks. -/
def flushWait (emptyObs : Nat → Bool) : Nat → Nat → Option Nat
  | 0, _ => none
  | fuel + 1, i => if emptyObs i then some i else flushWait emptyObs fuel (i + 1)

/-- The result of AsyncLogHandler.flush: it sets the flush event, then
busy-waits on queue.empty(); finishedAtCheck records at which check (if
any, within the unfolded fuel) the loop observed an empty queue. -/
structure FlushOutcome where
  flushEventSet : Bool
  finishedAtCheck : Option Nat
deriving DecidableEq, Repr

/-- AsyncLogHandler.flush: trigger the flush event, then loop until the
queue is observed empty.  There is no timeout in the source. -/
def flushModel (emptyObs : Nat → Bool) (fuel : Nat) : FlushOutcome :=
  { flushEventSet := true, finishedAtCheck := flushWait emptyObs fuel 0 }

/-- A stalled consumer with a non-empty queue: every check of
queue.empty() returns False forever. -/
def stalledNonEmpty : Nat → Bool := fun _ => false

/-! ## Registry: singleton LogManager (src/src/logs/singleton/log_manager.py) -/

/-- The RuntimeError raised by operations on an uninitialized manager. -/
def notInitErr : PyErr := { ty := "RuntimeError", msg := "not initialized" }

/-- The Registry locks of the singleton LogManager. -/
inductive RLock where
  | cfg
  | map
deriving DecidableEq, Repr

/-- Events performed by a LogManager method, in source order. -/
inductive REvent where
  | acquire (l : RLock)
  | release (l : RLock)
  | setConfig
  | loggerInvoke (name : String) (method : String)
  | mapRead
  | mapWrite (name : String)
  | createLogger (name : String)
  | raiseNotInit
deriving DecidableEq, Repr

/-- The LogManager state a claim can observe: the initialized flag and the
insertion-ordered names of the logger dict (the root logger is held in a
separate attribute and is not in the dict). -/
structure LMState where
  initialized : Bool
  loggers : List String
deriving DecidableEq, Repr

/-- LogManager.update_config (log_manager.py lines 196-218): raise
RuntimeError when uninitialized; otherwise, with self._config_lock held:
store the new config, call update_config on the root logger, then with
self._loggers_lock additionally held call update_config on every
registered logger. -/
def updateConfigTrace (st : LMState) : List REvent :=
  if st.initialized = false then [.raiseNotInit]
  else
    [.acquire .cfg, .setConfig, .loggerInvoke "root" "update_config", .acquire .map]
      ++ st.loggers.map (fun n => REvent.loggerInvoke n "update_config")
      ++ [.release .map, .release .cfg]

/-- For each loggerInvoke event of the trace, the list of Registry locks
held at that event (in acquisition order). -/
def loggerCallHeldLocks : List RLock → List REvent → List (List RLock)
  | _, [] => []
  | held, .acquire l :: rest => loggerCallHeldLocks (held ++ [l]) rest
  | held, .release l :: rest => loggerCallHeldLocks (held.erase l) rest
  | held, .loggerInvoke _ _ :: rest => held :: loggerCallHeldLocks held rest
  | held, _ :: rest => loggerCallHeldLocks held rest

/-- The claim-side predicate for C1: every Logger method invocation in the
trace happens with no Registry lock held. -/
def loggerCallsOutsideLocks (tr : List REvent) : Bool :=
  (loggerCallHeldLocks [] tr).all (· == [])

/-- For each setConfig event of the trace, the locks held at it. -/
def setConfigHeldLocks : List RLock → List REvent → List (List RLock)
  | _, [] => []
  | held, .acquire l :: rest => setConfigHeldLocks (held ++ [l]) rest
  | held, .release l :: rest => setConfigHeldLocks (held.erase l) rest
  | held, .setConfig :: rest => held :: setConfigHeldLocks held rest
  | held, _ :: rest => setConfigHeldLocks held rest

/-- LogManager.get_logger (log_manager.py lines 97-125): raise
RuntimeError when uninitialized; return the root reference lock-free for
the names root and empty; otherwise, with self._loggers_lock held, look
the name up, returning the existing logger or creating, registering and
returning a new one.  Result: the possibly-grown state, the event trace,
and the returned logger name (or the RuntimeError). -/
def getLogger (st : LMState) (name : String) :
    LMState × List REvent × Except PyErr String :=
  if st.initialized = false then
    (st, [.raiseNotInit], .error notInitErr)
  else if name = "root" || name = "" then
    (st, [], .ok "root")
  else if st.loggers.contains name then
    (st, [.acquire .map, .mapRead, .release .map], .ok name)
  else
    ({ st with loggers := st.loggers ++ [name] },
     [.acquire .map, .mapRead, .createLogger name, .mapWrite name, .release .map],
     .ok name)

/-- Whether a trace acquires the logger-map lock. -/
def acquiresMapLock (tr : List REvent) : Bool :=
  tr.contains (.acquire .map)

/-- LogManager.get_root_logger (lines 127-139). -/
def getRootLogger (st : LMState) : List REvent × Except PyErr String :=
  if st.initialized = false then
    ([.raiseNotInit], .error notInitErr)
  else
    ([], .ok "root")

/-- LogManager.has_logger (lines 141-154): False without locking when
uninitialized, otherwise a membership test under the loggers lock. -/
def hasLogger (st : LMState) (name : String) : List REvent × Bool :=
  if st.initialized = false then ([], false)
  else ([.acquire .map, .mapRead, .release .map], st.loggers.contains name)

/-- LogManager.get_logger_names (lines 176-186). -/
def getLoggerNames (st : LMState) : List REvent × List String :=
  if st.initialized = false then ([], [])
  else ([.acquire .map, .mapRead, .release .map], st.loggers)

/-- LogManager.get_loggers_count (lines 368-378). -/
def getLoggersCount (st : LMState) : List REvent × Nat :=
  if st.initialized = false then ([], 0)
  else ([.acquire .map, .mapRead, .release .map], st.loggers.length)

/-- LogManager.get_logger_info (lines 296-315): None without locking when
uninitialized; root info lock-free; otherwise a locked lookup. -/
def getLoggerInfo (st : LMState) (name : String) :
    List REvent × Option String :=
  if st.initialized = false then ([], none)
  else if name = "root" || name = "" then
    ([.loggerInvoke "root" "get_logger_info"], some "root")
  else if st.loggers.contains name then
    ([.acquire .map, .mapRead, .loggerInvoke name "get_logger_info", .release .map],
     some name)
  else
    ([.acquire .map, .mapRead, .release .map], none)

/-- LogManager.add_observer_to_all (lines 239-257): RuntimeError when
uninitialized; otherwise add to the root logger, then, with the loggers
lock held, to every registered logger. -/
def addObserverToAllTrace (st : LMState) : List REvent :=
  if st.initialized = false then [.raiseNotInit]
  else
    [.loggerInvoke "root" "add_observer", .acquire .map]
      ++ st.loggers.map (fun n => REvent.loggerInvoke n "add_observer")
      ++ [.release .map]

/-- LogManager.flush_all (lines 279-294): RuntimeError when uninitialized;
otherwise flush the root logger, then, with the loggers lock held, every
registered logger. -/
def flushAllTrace (st : LMState) : List REvent :=
  if st.initialized = false then [.raiseNotInit]
  else
    [.loggerInvoke "root" "flush", .acquire .map]
      ++ st.loggers.map (fun n => REvent.loggerInvoke n "flush")
      ++ [.release .map]

/-- Whether a trace touches the logger map: reads it, writes it, or
acquires its lock. -/
def touchesLoggerMap (tr : List REvent) : Bool :=
  tr.any fun e =>
    match e with
    | .mapRead => true
    | .mapWrite _ => true
    | .acquire .map => true
    | _ => false

/-! ## Lazy lock initialization race (AbstractLogger, abstracts.py)

AbstractLogger.__init__ (lines 23-33) sets _observers_lock = None, and
add_observer (lines 67-75) runs: if self._observers_lock is None:
self._observers_lock = threading.Lock(); with self._observers_lock: ...
The fragment is modelled as a small interleaved program per thread:

  pc 0: load the attribute; if None go to pc 1 else to pc 2
  pc 1: allocate a fresh Lock and store it into the attribute
  pc 2: re-load the attribute and acquire that lock (blocking while some
        other thread holds that same lock object)
  pc 3: append the observer and release the lock
  pc 4: done

Lock identities are the Nats handed out by a fresh-allocation counter. -/

/-- Thread-local state of one thread running add_observer first-touch. -/
structure RaceThread where
  pc : Nat
  holds : Option Nat
deriving DecidableEq, Repr

/-- Shared state of the race: the _observers_lock attribute, the
fresh-lock allocator, the identities of every Lock object created, and a
sticky flag set as soon as two threads are simultaneously inside the
with-block holding distinct lock objects. -/
structure RaceShared where
  attr : Option Nat
  nextId : Nat
  created : List Nat
  exclusionViolated : Bool
deriving DecidableEq, Repr

/-- One scheduler step: run one micro-instruction of thread i. -/
def raceStep (g : RaceShared) (ts : List RaceThread) (i : Nat) :
    RaceShared × List RaceThread :=
  match ts[i]? with
  | none => (g, ts)
  | some t =>
    match t.pc with
    | 0 =>
      match g.attr with
      | none => (g, ts.set i { t with pc := 1 })
      | some _ => (g, ts.set i { t with pc := 2 })
    | 1 =>
      ({ g with attr := some g.nextId, nextId := g.nextId + 1,
                created := g.created ++ [g.nextId] },
       ts.set i { t with pc := 2 })
    | 2 =>
      match g.attr with
      | none => (g, ts)
      | some l =>
        if ts.any fun u => u.holds == some l then (g, ts)
        else
          let ts1 := ts.set i { t with pc := 3, holds := some l }
          let bad := ts1.any fun u =>
            ts1.any fun v => u.holds.isSome && v.holds.isSome && u.holds != v.holds
          ({ g with exclusionViolated := g.exclusionViolated || bad }, ts1)
    | 3 => (g, ts.set i { t with pc := 4, holds := none })
    | _ => (g, ts)

/-- Run a whole schedule (a list of thread indices) from the initial
state in which the attribute is still None and n threads are about to
race through their first add_observer. -/
def runRace (n : Nat) (sched : List Nat) : RaceShared × List RaceThread :=
  sched.foldl (fun (p : RaceShared × List RaceThread) i => raceStep p.1 p.2 i)
    ({ attr := none, nextId := 1, created := [], exclusionViolated := false },
     List.replicate n { pc := 0, holds := none })

/-- The claim-side predicate for C9: after the race, exactly one lock
object was ever created and mutual exclusion was never violated. -/
def singleLockIdentity (r : RaceShared × List RaceThread) : Bool :=
  r.1.created.length == 1 && !r.1.exclusionViolated

/-- The interleaving that breaks the lazy-initialization pattern: both
threads pass the None check before either stores, then each creates its
own Lock and enters the with-block under its own lock. -/
def racySchedule : List Nat := [0, 1, 0, 0, 1, 1]

/-! ## ErrorChain: ErrorHandlingManager (error_handler_fix.py lines 380-523)

The manager in error_handler_fix.py carries a shared recursion-depth
counter (_recursion_depth, starting at 0), a ceiling
(_max_recursion_depth = 10), error statistics and performance counters.
handle_error increments the depth under the lock; if the incremented
depth exceeds the ceiling it prints two lines to stderr, resets the
counter to 0 and returns without any handling; otherwise it builds the
context, bumps the error statistics, runs the CompositeErrorHandler
(whose per-handler try/except routes a handler exception to a
PrintErrorHandler emitting an info line and, because the rethrow context
is CRITICAL, a traceback line, so the composite itself never raises),
and in a finally block decrements the depth (clamped at 0, matching the
negative-value guard of the source) and bumps the handling-time statistics.

The model is the sequential semantics of that algorithm; the handler run
by the chain is abstracted by its behaviour: it succeeds, it raises, or
it re-enters manager.handle_error once and then returns.  The internal
locks are uncontended in these sequential scenarios and are not given
events. -/

/-- Behaviour of the (sole) registered error handler. -/
inductive HandlerBehavior where
  | succeeds
  | throws
  | reenters
deriving DecidableEq, Repr

/-- State of ErrorHandlingManager: recursion depth, ceiling, error count,
handling-statistics count, and the lines printed to stderr so far. -/
structure EHState where
  depth : Nat
  maxDepth : Nat
  errorCount : Nat
  handlingCount : Nat
  stderrLines : List String
deriving DecidableEq, Repr

/-- The two stderr lines of the short-circuit branch (lines 483-484). -/
def shortCircuitLines : List String :=
  ["CRITICAL: error handling recursion depth exceeded, aborting", "original error"]

/-- The two stderr lines PrintErrorHandler emits for the CRITICAL context
built when a handler raises (composite lines 306-331, print handler
lines 137-153: the info line plus the traceback, printed because the
severity is CRITICAL). -/
def handlerFailureLines : List String :=
  ["[error-handler-failure] CRITICAL", "traceback"]

/-- ErrorHandlingManager.__init__ (lines 380-395): depth 0, ceiling 10. -/
def initErrorManager : EHState :=
  { depth := 0, maxDepth := 10, errorCount := 0, handlingCount := 0, stderrLines := [] }

/-- ErrorHandlingManager.handle_error (error_handler_fix.py lines
458-523), together with the depth each composite run happens at (the
second component, recorded for stating the recursion bound; it is
instrumentation, not source state). -/
def mgrHandle (b : HandlerBehavior) (st : EHState) : EHState × List Nat :=
  let d := st.depth + 1
  if st.maxDepth < d then
    ({ st with depth := 0, stderrLines := st.stderrLines ++ shortCircuitLines }, [])
  else
    let st1 := { st with depth := d, errorCount := st.errorCount + 1 }
    let inner :=
      match b with
      | .succeeds => (st1, [])
      | .throws =>
        ({ st1 with stderrLines := st1.stderrLines ++ handlerFailureLines }, [])
      | .reenters => mgrHandle b st1
    ({ inner.1 with depth := inner.1.depth - 1,
                    handlingCount := inner.1.handlingCount + 1 },
     d :: inner.2)
termination_by st.maxDepth + 1 - st.depth
decreasing_by
  omega

/-! ## Shared concrete fixtures -/

/-- A sample record. -/
def recA : LogEntry :=
  { timestamp := 0, level := .info, message := "alpha", loggerName := "t", threadId := 7 }

/-- A second sample record. -/
def recB : LogEntry :=
  { timestamp := 1, level := .warning, message := "beta", loggerName := "t", threadId := 7 }

/-- A third sample record. -/
def recC : LogEntry :=
  { timestamp := 2, level := .error, message := "gamma", loggerName := "t", threadId := 8 }

/-- An initialized manager with one registered logger named worker. -/
def demoManager : LMState := { initialized := true, loggers := ["worker"] }

/-- An uninitialized manager that still holds a stale map entry. -/
def unInitManager : LMState := { initialized := false, loggers := ["stale"] }

/-! ## C1: update_config lock discipline -/

/-- C1: the claim says LogManager.update_config swaps the config under its
guard and then updates the root Logger and every registered Logger
outside any Registry lock, and that no Registry lock is ever held while a
Logger method runs.  Evaluating the embedded update_config at an
initialized manager with one registered logger shows the opposite: the
root Logger update runs with the config lock held and the registered
logger update runs with both the config lock and the loggers lock held
(the config swap itself is indeed guarded).  This matches the deadlock
the scripts thread_safety_fix.py and log_manager_final_fix.py of the
repository itself identify and repair. -/
theorem updateConfigInvokesLoggersUnderRegistryLocks :
    loggerCallsOutsideLocks (updateConfigTrace demoManager) = false ∧
    loggerCallHeldLocks [] (updateConfigTrace demoManager)
      = [[RLock.cfg], [RLock.cfg, RLock.map]] ∧
    setConfigHeldLocks [] (updateConfigTrace demoManager) = [[RLock.cfg]] := by
  decide

/-! ## C5: dispatch snapshot discipline -/

/-- A strategy whose output always succeeds. -/
def okStrategy : Strategy := { name := "ConsoleOutputStrategy", output := fun _ => none }

/-- C5 counterexample: the claim says dispatch copies the target
collection under the lock and invokes each target outside the lock; but
with a single, succeeding strategy the sole invocation of
_process_record happens at lock depth one, not zero, so the claim is
false at this concrete input. -/
theorem dispatchInvokesTargetInsideLock :
    invocationsAtDepth 0 (processRecord true [okStrategy] recA) = false := by
  decide

/-! ## C6: get_logger locking for existing names -/

/-- C6 counterexample: the claim says get_logger of an already-registered
name returns the existing Logger without acquiring the map lock; on the
embedded source, looking up the existing name worker acquires the
loggers lock (and still returns the existing logger without creating a
new one). -/
theorem getLoggerExistingNameAcquiresMapLock :
    acquiresMapLock (getLogger demoManager "worker").2.1 = true ∧
    (getLogger demoManager "worker").2.2 = Except.ok "worker" ∧
    (getLogger demoManager "worker").1 = demoManager := by
  exact ⟨by decide, rfl, by decide⟩

/-! ## C9: the lazy lock-creation race -/

/-- C9: the claim says the unguarded if-lock-is-None pattern is never
used and races always end with a single lock identity.  Running the
embedded AbstractLogger.add_observer first-touch fragment under the
interleaving in which both threads pass the None check before either
stores shows two Lock objects created and both threads simultaneously
inside the with-block holding distinct locks, exactly the race the
test_lock_initialization_race in thread_safety_diagnosis.py of the
repository
detects. -/
theorem lazyLockRaceCreatesTwoLocks :
    singleLockIdentity (runRace 2 racySchedule) = false ∧
    (runRace 2 racySchedule).1.created = [1, 2] ∧
    (runRace 2 racySchedule).1.exclusionViolated = true := by
  decide

/-! ## C10: behavior of an uninitialized manager -/

/-- C10: on an uninitialized LogManager, get_logger, get_root_logger,
update_config, add_observer_to_all and flush_all raise RuntimeError,
while has_logger, get_logger_names, get_loggers_count and
get_logger_info return False, the empty list, zero and None without
raising; and none of these operations performs any logger-map access
(no map read, no map write, no map-lock acquisition). -/
theorem uninitializedManagerBehavior (st : LMState) (h : st.initialized = false)
    (name : String) :
    (getLogger st name).2.2 = Except.error notInitErr ∧
    (getLogger st name).1 = st ∧
    (getRootLogger st).2 = Except.error notInitErr ∧
    updateConfigTrace st = [REvent.raiseNotInit] ∧
    addObserverToAllTrace st = [REvent.raiseNotInit] ∧
    flushAllTrace st = [REvent.raiseNotInit] ∧
    hasLogger st name = ([], false) ∧
    getLoggerNames st = ([], []) ∧
    getLoggersCount st = ([], 0) ∧
    getLoggerInfo st name = ([], none) ∧
    touchesLoggerMap (getLogger st name).2.1 = false ∧
    touchesLoggerMap (getRootLogger st).1 = false ∧
    touchesLoggerMap (updateConfigTrace st) = false ∧
    touchesLoggerMap (addObserverToAllTrace st) = false ∧
    touchesLoggerMap (flushAllTrace st) = false ∧
    touchesLoggerMap (hasLogger st name).1 = false ∧
    touchesLoggerMap (getLoggerNames st).1 = false ∧
    touchesLoggerMap (getLoggersCount st).1 = false ∧
    touchesLoggerMap (getLoggerInfo st name).1 = false := by
  simp [getLogger, getRootLogger, updateConfigTrace, addObserverToAllTrace,
        flushAllTrace, hasLogger, getLoggerNames, getLoggersCount, getLoggerInfo,
        touchesLoggerMap, h]

/-- Witness for C10 at a concrete uninitialized manager and name. -/
theorem uninitializedManagerBehaviorWitness :
    unInitManager.initialized = false ∧
    (getLogger unInitManager "stale").2.2 = Except.error notInitErr ∧
    hasLogger unInitManager "stale" = ([], false) ∧
    getLoggersCount unInitManager = ([], 0) ∧
    touchesLoggerMap (updateConfigTrace unInitManager) = false :=
  ⟨rfl, (uninitializedManagerBehavior unInitManager rfl "stale").1,
   (uninitializedManagerBehavior unInitManager rfl "stale").2.2.2.2.2.2.1,
   (uninitializedManagerBehavior unInitManager rfl "stale").2.2.2.2.2.2.2.2.1,
   (uninitializedManagerBehavior unInitManager rfl "stale").2.2.2.2.2.2.2.2.2.2.2.2.1⟩

/-! ## C7: flush has no timeout -/

/-- The flush busy-wait never finishes while every check observes a
non-empty queue. -/
theorem flushWaitStalled (fuel : Nat) :
    ∀ i, flushWait stalledNonEmpty fuel i = none := by
  induction fuel with
  | zero => intro i; rfl
  | succ n ih => intro i; simp [flushWait, stalledNonEmpty, ih]

/-- C7 counterexample: the claim says flush blocks until the queue
empties or a bounded timeout elapses and returns after that timeout even
if the queue has not drained.  With a stalled consumer and a non-empty
queue, the embedded flush loop is still spinning after a million checks
of queue.empty() (and, by flushWaitStalled, after any number of checks):
the source loop has no timeout at all. -/
theorem flushStalledConsumerNeverReturns :
    (flushModel stalledNonEmpty 1000000).finishedAtCheck = none := by
  simp [flushModel, flushWaitStalled]

/-- C7 amended: flush sets the flush event and then waits; it returns
only at a check that observed the queue empty, and if no check ever
observes the queue empty (a stalled consumer) it never returns, for any
number of checks.  There is no timeout path. -/
theorem flushReturnsOnlyOnObservedEmpty (emptyObs : Nat → Bool) (fuel i : Nat) :
    ((∀ k, emptyObs k = false) → flushWait emptyObs fuel i = none) ∧
    (∀ j, flushWait emptyObs fuel i = some j → emptyObs j = true) ∧
    (flushModel emptyObs fuel).flushEventSet = true := by
  refine ⟨?_, ?_, rfl⟩
  · intro hstall
    induction fuel generalizing i with
    | zero => rfl
    | succ n ih => simp [flushWait, hstall, ih]
  · induction fuel generalizing i with
    | zero => intro j hj; cases hj
    | succ n ih =>
      intro j hj
      by_cases he : emptyObs i = true
      · simp [flushWait, he] at hj
        exact hj ▸ he
      · simp only [Bool.not_eq_true] at he
        simp [flushWait, he] at hj
        exact ih (i + 1) j hj

/-- Witness for C7 amended at a concrete oracle, fuel and start index. -/
theorem flushReturnsOnlyOnObservedEmptyWitness :
    flushWait stalledNonEmpty 3 0 = none ∧
    (flushModel stalledNonEmpty 3).flushEventSet = true :=
  ⟨(flushReturnsOnlyOnObservedEmpty stalledNonEmpty 3 0).1 (fun _ => rfl),
   (flushReturnsOnlyOnObservedEmpty stalledNonEmpty 3 0).2.2⟩

/-- Helper for C5: past the initial acquisition, the per-strategy blocks
of _process_record keep the checker at lock depth one and the final
release balances it. -/
theorem checkInvokeDepthDispatchBody (hasErrorHandler : Bool) (record : LogEntry) :
    ∀ strategies : List Strategy,
      checkInvokeDepth 1 1
        ((strategies.flatMap fun s =>
          match s.output record with
          | none => [DispatchEvent.delivered s.name]
          | some _ =>
            if hasErrorHandler then [DispatchEvent.errorRouted s.name] else [])
          ++ [DispatchEvent.releaseStrategies]) = true := by
  intro strategies
  induction strategies with
  | nil => rfl
  | cons s rest ih =>
    simp only [List.flatMap_cons, List.append_assoc]
    cases hout : s.output record with
    | none => simpa [checkInvokeDepth] using ih
    | some e =>
      cases hasErrorHandler with
      | false => simpa [checkInvokeDepth] using ih
      | true => simpa [checkInvokeDepth] using ih

/-- C5 amended: _process_record takes the strategies lock once, performs
every target invocation (delivery or error routing) while holding it at
depth one, and releases it at the end; no snapshot is taken and no
invocation happens outside the lock. -/
theorem dispatchInvocationsAtLockDepthOne (hasErrorHandler : Bool)
    (strategies : List Strategy) (record : LogEntry) :
    invocationsAtDepth 1 (processRecord hasErrorHandler strategies record) = true := by
  simpa [invocationsAtDepth, processRecord, checkInvokeDepth]
    using checkInvokeDepthDispatchBody hasErrorHandler record strategies

/-- C6 amended: for every non-root name, get_logger acquires the loggers
lock, whether the name is already registered (it then returns the
existing logger, writes nothing, and leaves the state unchanged) or not
(it then creates and registers the logger under that same lock); only
the root and empty names are served lock-free. -/
theorem getLoggerAlwaysLocksForNonRootNames (st : LMState) (name : String)
    (hinit : st.initialized = true) :
    (name = "root" ∨ name = "" →
      getLogger st name = (st, [], Except.ok "root")) ∧
    (name ≠ "root" → name ≠ "" →
      acquiresMapLock (getLogger st name).2.1 = true ∧
      (st.loggers.contains name = true →
        getLogger st name =
          (st, [REvent.acquire RLock.map, REvent.mapRead, REvent.release RLock.map],
           Except.ok name)) ∧
      (st.loggers.contains name = false →
        getLogger st name =
          ({ st with loggers := st.loggers ++ [name] },
           [REvent.acquire RLock.map, REvent.mapRead, REvent.createLogger name,
            REvent.mapWrite name, REvent.release RLock.map],
           Except.ok name))) := by
  constructor
  · intro hroot
    rcases hroot with h | h <;> simp [getLogger, hinit, h]
  · intro h1 h2
    refine ⟨?_, ?_, ?_⟩
    · by_cases hc : name ∈ st.loggers <;>
        simp [getLogger, acquiresMapLock, hinit, h1, h2, hc]
    · intro hc
      have hm : name ∈ st.loggers := by simpa using hc
      simp [getLogger, hinit, h1, h2, hm]
    · intro hc
      have hm : name ∉ st.loggers := by simpa using hc
      simp [getLogger, hinit, h1, h2, hm]

/-- Witness for C6 amended: the existing name worker is returned under
the lock without a map write, and a fresh name is created under it. -/
theorem getLoggerAlwaysLocksWitness :
    demoManager.initialized = true ∧
    getLogger demoManager "worker" =
      (demoManager,
       [REvent.acquire RLock.map, REvent.mapRead, REvent.release RLock.map],
       Except.ok "worker") :=
  ⟨rfl,
   ((getLoggerAlwaysLocksForNonRootNames demoManager "worker" rfl).2
     (by decide) (by decide)).2.1 rfl⟩

/-! ## C2: enqueue drop policy -/

/-- A drop callback that itself raises (re-raises the Full error). -/
def reRaisingDropCallback : DropCallback := fun _ => some queueFullErr

/-- A pipeline of capacity one whose queue is already full. -/
def fullPipeline : AsyncQueueState := { queueSize := 1, queue := [recA] }

/-- C2 counterexample: the claim says enqueue never raises in any state
of the pipeline; but the source only catches queue.Full, so when the
configured error handler itself raises on the drop path, enqueue
propagates that exception to the caller. -/
theorem enqueueRaisesWhenDropCallbackRaises :
    enqueue (some reRaisingDropCallback) fullPipeline recB
      = Except.error queueFullErr := rfl

/-- Helper for C2: with a never-raising drop callback, a batch of
enqueues against a stalled consumer fills the remaining capacity in
order and reports False for every further record. -/
theorem enqueueAllNoRaiseSpec (f : DropCallback) (hf : ∀ r, f r = none)
    (K : Nat) (hK : 0 < K) :
    ∀ (records q : List LogEntry), q.length ≤ K →
      enqueueAll (some f) { queueSize := K, queue := q } records =
        Except.ok ({ queueSize := K, queue := q ++ records.take (K - q.length) },
          List.replicate (min records.length (K - q.length)) true ++
          List.replicate (records.length - (K - q.length)) false) := by
  intro records
  induction records with
  | nil => intro q hq; simp [enqueueAll]
  | cons r rs ih =>
    intro q hq
    by_cases hful : K ≤ q.length
    · have h0 : K - q.length = 0 := by omega
      have hcond : queueFull { queueSize := K, queue := q } = true := by
        simp [queueFull]; omega
      simp only [enqueueAll, enqueue, hcond, if_true, hf]
      rw [ih q hq]
      simp [h0, List.replicate_succ]
    · have hcond : queueFull { queueSize := K, queue := q } = false := by
        simp [queueFull]; omega
      have hq1 : (q ++ [r]).length ≤ K := by simp; omega
      simp only [enqueueAll, enqueue, hcond, Bool.false_eq_true, if_false]
      rw [ih (q ++ [r]) hq1]
      have hc1 : K - q.length = (K - (q.length + 1)) + 1 := by omega
      simp [hc1, List.append_assoc, Nat.succ_min_succ, Nat.succ_sub_succ,
            List.replicate_succ]

/-- C2 amended: enqueue is put_nowait-based (it never blocks), and with a
drop callback that does not raise (AsyncLogger wires in its never-raising
_handle_error) it never raises either; there is no dropped-record
counter: a full queue makes enqueue notify the callback and return
False, so enqueueing K+M records into an empty pipeline of capacity K
with a stalled consumer keeps exactly the first K records and reports
exactly M drops through the M False results. -/
theorem enqueueNeverBlocksDropsBeyondCapacity (f : DropCallback)
    (hf : ∀ r, f r = none) (K M : Nat) (hK : 0 < K)
    (records : List LogEntry) (hlen : records.length = K + M) :
    enqueueAll (some f) { queueSize := K, queue := [] } records =
      Except.ok ({ queueSize := K, queue := records.take K },
        List.replicate K true ++ List.replicate M false) := by
  have h := enqueueAllNoRaiseSpec f hf K hK records [] (by simp)
  rw [h]
  have h1 : min records.length K = K := by
    rw [hlen]; omega
  have h2 : records.length - K = M := by omega
  simp [h1, h2]

/-- Witness for C2 amended: capacity two, three records, the AsyncLogger
drop callback; the first two records are kept and the third is dropped
with a False result. -/
theorem enqueueDropPolicyWitness :
    (∀ r, asyncLoggerDropCallback r = none) ∧
    enqueueAll (some asyncLoggerDropCallback) { queueSize := 2, queue := [] }
        [recA, recB, recC] =
      Except.ok ({ queueSize := 2, queue := [recA, recB] }, [true, true, false]) :=
  ⟨fun _ => rfl, by
    have h := enqueueNeverBlocksDropsBeyondCapacity asyncLoggerDropCallback
      (fun _ => rfl) 2 1 (by decide) [recA, recB, recC] rfl
    simpa using h⟩

/-! ## C4: exception propagation out of log() -/

/-- A generic observer-side exception. -/
def obsErr : PyErr := { ty := "ValueError", msg := "observer failed" }

/-- A second exception, raised by the failing on_error rescue. -/
def rescueErr : PyErr := { ty := "TypeError", msg := "on_error failed" }

/-- An observer whose on_log_record raises and whose on_error also
raises. -/
def doublyFailingObserver : Observer :=
  { name := "bad", onLogRecord := fun _ => some obsErr,
    onError := fun _ => some rescueErr }

/-- An AsyncLogger whose sole observer is the doubly failing one, with no
filters, min level DEBUG and an empty queue of capacity ten. -/
def loggerWithBadObserver : AsyncLoggerState :=
  { name := "t", minLevel := .debug, filters := [],
    observers := [doublyFailingObserver],
    qstate := { queueSize := 10, queue := [] } }

/-- C4 counterexample: the claim says log() still returns normally when
the on_log_record of an observer raises and the on_error of that
observer also
raises; on the embedded source the unguarded on_error call makes log()
propagate the rescue exception to its caller. -/
theorem logPropagatesWhenOnErrorRaises :
    asyncLog loggerWithBadObserver 0 7 .info "m" = Except.error rescueErr := rfl

/-- Helper for C4: when the on_error of every observer returns normally,
observer notification always returns normally. -/
theorem notifyObserversBenignRescue (record : LogEntry) :
    ∀ observers : List Observer,
      (∀ o ∈ observers, ∀ e, o.onError e = none) →
      notifyObservers record observers = Except.ok () := by
  intro observers
  induction observers with
  | nil => intro _; rfl
  | cons o rest ih =>
    intro h
    have ho := h o (List.mem_cons_self o rest)
    have hrest : ∀ o2 ∈ rest, ∀ e, o2.onError e = none :=
      fun o2 hm e => h o2 (List.mem_cons_of_mem o hm) e
    cases hrec : o.onLogRecord record with
    | none => simp [notifyObservers, hrec, ih hrest]
    | some e => simp [notifyObservers, hrec, ho e, ih hrest]

/-- Helper for C4: the enqueue performed by AsyncLogger.log never raises
because the wired-in drop callback (AsyncLogger._handle_error) never
raises. -/
theorem enqueueWithLoggerCallbackOk (st : AsyncQueueState) (record : LogEntry) :
    ∃ p, enqueue (some asyncLoggerDropCallback) st record = Except.ok p := by
  by_cases hful : queueFull st = true
  · exact ⟨(st, false), by simp [enqueue, hful, asyncLoggerDropCallback]⟩
  · refine ⟨({ st with queue := st.queue ++ [record] }, true), ?_⟩
    simp only [Bool.not_eq_true] at hful
    simp [enqueue, hful]

/-- C4 amended: no sink or pipeline error reaches the caller of log()
(sinks run on the worker thread and the queue-full path is caught with a
never-raising callback), and an exception from the on_log_record of an
observer is routed to the on_error of that same observer; provided the
on_error of each observer itself returns normally, log() always returns normally.  (If an on_error
raises, the exception does propagate, as the counterexample shows.) -/
theorem logReturnsNormallyWhenOnErrorBenign (lg : AsyncLoggerState)
    (timestamp threadId : Nat) (level : LogLevel) (message : String)
    (h : ∀ o ∈ lg.observers, ∀ e, o.onError e = none) :
    (asyncLog lg timestamp threadId level message).isOk = true := by
  unfold asyncLog
  by_cases h1 : level.value < lg.minLevel.value
  · simp [h1, Except.isOk, Except.toBool]
  · simp only [h1, if_false]
    set record : LogEntry :=
      { timestamp := timestamp, level := level, message := message,
        loggerName := lg.name, threadId := threadId } with hrec
    by_cases h2 : shouldLog lg record
    · obtain ⟨p, hp⟩ := enqueueWithLoggerCallbackOk lg.qstate record
      simp [h2, notifyObserversBenignRescue record lg.observers h, hp,
            Except.isOk, Except.toBool]
    · simp [h2, Except.isOk, Except.toBool]

/-- An observer that raises in on_log_record but rescues normally. -/
def rescuingObserver : Observer :=
  { name := "flaky", onLogRecord := fun _ => some obsErr,
    onError := fun _ => none }

/-- An AsyncLogger whose sole observer raises on records but rescues
normally in on_error. -/
def loggerWithRescuingObserver : AsyncLoggerState :=
  { name := "t", minLevel := .debug, filters := [],
    observers := [rescuingObserver],
    qstate := { queueSize := 10, queue := [] } }

/-- Witness for C4 amended: with the rescuing observer, log() returns
normally. -/
theorem logReturnsNormallyWitness :
    (∀ o ∈ loggerWithRescuingObserver.observers, ∀ e, o.onError e = none) ∧
    (asyncLog loggerWithRescuingObserver 0 7 .info "m").isOk = true := by
  have hobs : ∀ o ∈ loggerWithRescuingObserver.observers, ∀ e, o.onError e = none := by
    intro o ho e
    rcases List.mem_singleton.mp ho with rfl
    rfl
  exact ⟨hobs, logReturnsNormallyWhenOnErrorBenign loggerWithRescuingObserver 0 7 .info "m" hobs⟩

/-! ## C8: per-target fault isolation -/

/-- Helper for C8: the trace of one _process_record over targets
[A, B, C] when A and C succeed and B raises. -/
theorem processRecordTraceABC (A B C : Strategy) (r : LogEntry)
    (hA : A.output r = none) (hC : C.output r = none)
    (hB : (B.output r).isSome = true) :
    processRecord true [A, B, C] r =
      [DispatchEvent.acquireStrategies, DispatchEvent.delivered A.name,
       DispatchEvent.errorRouted B.name, DispatchEvent.delivered C.name,
       DispatchEvent.releaseStrategies] := by
  obtain ⟨e, he⟩ := Option.isSome_iff_exists.mp hB
  simp [processRecord, hA, hC, he]

/-- C8: with targets [A, B, C] where A and C always succeed and B always
raises, every record of a batch is delivered to A and to C, B receives
no delivery, and the exception of B is routed to the error handler
tagged with the identity of B exactly once per record (A and C trigger no error
routing). -/
theorem dispatchFaultIsolation (A B C : Strategy) (records : List LogEntry)
    (hA : ∀ r, A.output r = none) (hC : ∀ r, C.output r = none)
    (hB : ∀ r, (B.output r).isSome = true)
    (hAB : A.name ≠ B.name) (hBC : B.name ≠ C.name) (hAC : A.name ≠ C.name) :
    deliveredCount (processAll true [A, B, C] records) A.name = records.length ∧
    deliveredCount (processAll true [A, B, C] records) C.name = records.length ∧
    errorRoutedCount (processAll true [A, B, C] records) B.name = records.length ∧
    deliveredCount (processAll true [A, B, C] records) B.name = 0 ∧
    errorRoutedCount (processAll true [A, B, C] records) A.name = 0 ∧
    errorRoutedCount (processAll true [A, B, C] records) C.name = 0 := by
  induction records with
  | nil =>
    simp [processAll, deliveredCount, errorRoutedCount]
  | cons r rs ih =>
    have htr := processRecordTraceABC A B C r (hA r) (hC r) (hB r)
    obtain ⟨i1, i2, i3, i4, i5, i6⟩ := ih
    refine ⟨?_, ?_, ?_, ?_, ?_, ?_⟩ <;>
      simp [processAll, List.flatMap_cons, htr, deliveredCount, errorRoutedCount,
            List.filter_append, i1, i2, i3, i4, i5, i6, hAB, hBC, hAC,
            hAB.symm, hBC.symm, hAC.symm] at *
    · exact i1
    · exact i2
    · exact i3
    · exact i4
    · exact i5
    · exact i6

/-- The always-succeeding first target. -/
def sinkA : Strategy := { name := "FileOutputStrategy", output := fun _ => none }

/-- The always-raising middle target. -/
def sinkB : Strategy := { name := "NetworkOutputStrategy", output := fun _ => some obsErr }

/-- The always-succeeding last target. -/
def sinkC : Strategy := { name := "ConsoleStrategy", output := fun _ => none }

/-- Witness for C8 at concrete sinks and a two-record batch. -/
theorem dispatchFaultIsolationWitness :
    deliveredCount (processAll true [sinkA, sinkB, sinkC] [recA, recB]) sinkA.name = 2 ∧
    deliveredCount (processAll true [sinkA, sinkB, sinkC] [recA, recB]) sinkC.name = 2 ∧
    errorRoutedCount (processAll true [sinkA, sinkB, sinkC] [recA, recB]) sinkB.name = 2 ∧
    deliveredCount (processAll true [sinkA, sinkB, sinkC] [recA, recB]) sinkB.name = 0 :=
  have h := dispatchFaultIsolation sinkA sinkB sinkC [recA, recB]
    (fun _ => rfl) (fun _ => rfl) (fun _ => rfl)
    (by decide) (by decide) (by decide)
  ⟨h.1, h.2.1, h.2.2.1, h.2.2.2.1⟩

/-! ## C3: recursion-bounded error handling -/

/-- One-step unfolding of mgrHandle (its defining equation, restated so
the well-founded definition can be rewritten with). -/
theorem mgrHandleUnfold (b : HandlerBehavior) (st : EHState) :
    mgrHandle b st =
      if st.maxDepth < st.depth + 1 then
        ({ st with depth := 0, stderrLines := st.stderrLines ++ shortCircuitLines }, [])
      else
        let st1 := { st with depth := st.depth + 1, errorCount := st.errorCount + 1 }
        let inner :=
          match b with
          | .succeeds => (st1, [])
          | .throws => ({ st1 with stderrLines := st1.stderrLines ++ handlerFailureLines }, [])
          | .reenters => mgrHandle b st1
        ({ inner.1 with depth := inner.1.depth - 1,
                        handlingCount := inner.1.handlingCount + 1 },
         (st.depth + 1) :: inner.2) := by
  rw [mgrHandle]

/-- handle_error never leaves the depth counter above its entry value:
the increment is undone by the finally-block decrement, and the
short-circuit branch resets the counter to zero. -/
theorem mgrHandleDepthLe (b : HandlerBehavior) (st : EHState) :
    (mgrHandle b st).1.depth ≤ st.depth := by
  refine mgrHandle.induct b (fun s => (mgrHandle b s).1.depth ≤ s.depth) ?_ ?_ st
  · intro x d hlt
    show (mgrHandle b x).1.depth ≤ x.depth
    rw [mgrHandleUnfold, if_pos hlt]
    simp
  · intro x d hlt st1 ih
    show (mgrHandle b x).1.depth ≤ x.depth
    rw [mgrHandleUnfold, if_neg hlt]
    cases b with
    | succeeds => simp
    | throws => simp
    | reenters =>
      have ih2 : (mgrHandle HandlerBehavior.reenters
          { depth := x.depth + 1, maxDepth := x.maxDepth,
            errorCount := x.errorCount + 1, handlingCount := x.handlingCount,
            stderrLines := x.stderrLines }).1.depth ≤ x.depth + 1 := ih
      simp only []
      omega

/-- Every depth at which the composite chain actually runs is bounded by
the recursion ceiling: handling is attempted only after the incremented
depth passed the guard. -/
theorem mgrHandleDepthsLe (b : HandlerBehavior) (st : EHState) :
    ∀ d ∈ (mgrHandle b st).2, d ≤ st.maxDepth := by
  refine mgrHandle.induct b (fun s => ∀ d ∈ (mgrHandle b s).2, d ≤ s.maxDepth) ?_ ?_ st
  · intro x d hlt
    show ∀ e ∈ (mgrHandle b x).2, e ≤ x.maxDepth
    rw [mgrHandleUnfold, if_pos hlt]
    simp
  · intro x d hlt st1 ih
    show ∀ e ∈ (mgrHandle b x).2, e ≤ x.maxDepth
    rw [mgrHandleUnfold, if_neg hlt]
    cases b with
    | succeeds => simp; omega
    | throws => simp; omega
    | reenters =>
      have ih2 : ∀ e ∈ (mgrHandle HandlerBehavior.reenters
          { depth := x.depth + 1, maxDepth := x.maxDepth,
            errorCount := x.errorCount + 1, handlingCount := x.handlingCount,
            stderrLines := x.stderrLines }).2, e ≤ x.maxDepth := ih
      simp only [List.mem_cons]
      rintro e (rfl | he)
      · omega
      · exact ih2 e he

/-- C3: for a top-level handle_error call (entry depth zero, positive
ceiling): the call returns with the depth counter back at zero (the
entry increment is matched by the exit decrement or reset); handling is
never performed at a depth above the ceiling; whenever the incremented
depth would exceed the ceiling the call short-circuits, resetting the
counter to zero, emitting the fallback lines on stderr and performing no
handling at all (error count and statistics untouched); and with a sole
registered handler that always throws, the call terminates normally
(mgrHandle is a total function into plain states, so no exception
reaches the caller), having handled the error once and emitted the
print-handler fallback lines.  The claim reads the depth bound as a
bound on the depths at which handling runs: the source increments first
and short-circuits as soon as the counter passes the ceiling. -/
theorem errorChainRecursionGuard (b : HandlerBehavior) (st : EHState)
    (hd : st.depth = 0) (hmax : 1 ≤ st.maxDepth) :
    (mgrHandle b st).1.depth = 0 ∧
    (∀ d ∈ (mgrHandle b st).2, d ≤ st.maxDepth) ∧
    (∀ st2 : EHState, st2.maxDepth < st2.depth + 1 →
       mgrHandle b st2 =
         ({ st2 with depth := 0,
                     stderrLines := st2.stderrLines ++ shortCircuitLines }, [])) ∧
    (b = .throws →
       mgrHandle b st =
         ({ st with depth := 0, errorCount := st.errorCount + 1,
                    handlingCount := st.handlingCount + 1,
                    stderrLines := st.stderrLines ++ handlerFailureLines }, [1])) := by
  refine ⟨?_, mgrHandleDepthsLe b st, ?_, ?_⟩
  · have h := mgrHandleDepthLe b st
    omega
  · intro st2 h2
    rw [mgrHandleUnfold, if_pos h2]
  · rintro rfl
    have hno : ¬ st.maxDepth < st.depth + 1 := by omega
    rw [mgrHandleUnfold, if_neg hno]
    simp [hd]

/-- Witness for C3 at the freshly constructed manager (ceiling ten, the
source default) with an always-throwing sole handler. -/
theorem errorChainRecursionGuardWitness :
    initErrorManager.depth = 0 ∧ 1 ≤ initErrorManager.maxDepth ∧
    (mgrHandle .throws initErrorManager).1.depth = 0 ∧
    mgrHandle .throws initErrorManager =
      ({ initErrorManager with depth := 0,
                               errorCount := initErrorManager.errorCount + 1,
                               handlingCount := initErrorManager.handlingCount + 1,
                               stderrLines := initErrorManager.stderrLines ++
                                 handlerFailureLines }, [1]) :=
  have h := errorChainRecursionGuard .throws initErrorManager rfl (by decide)
  ⟨rfl, by decide, h.1, h.2.2.2 rfl⟩

/-- Witness for C5 amended at a concrete strategy list and record. -/
theorem dispatchInvocationsDepthWitness :
    invocationsAtDepth 1 (processRecord true [okStrategy] recA) = true :=
  dispatchInvocationsAtLockDepthOne true [okStrategy] recA
